import Mathlib

/-!
Shallow embedding of the MystWell transcription microservice.

The service consists of four Python modules:
  - utils/config.py: environment-based configuration resolution
    (embedded as functions over an environment `String → Option String`);
  - utils/security.py: the X-API-Key request gate built on the
    constant-time comparison secrets.compare_digest;
  - services/transcription.py: the provider call transcribe_audio_v2,
    with the provider outcome abstracted as a `CallOutcome`;
  - main.py: the /transcribe endpoint handler and the /health endpoint.

Machine-level conventions of the embedding: byte strings are `List Nat`,
Python exceptions raised as HTTP errors are `Except HTTPError`, Python
truthiness of optional strings is made explicit, and observable effects
the theorems need (whether the provider network call was attempted,
whether the Transcription Client was invoked, how many times the upload
handle was closed) are returned as extra components.
-/

/-- An HTTP error as raised by FastAPI's HTTPException: a status code and
a detail message. -/
structure HTTPError where
  statusCode : Nat
  detail : String
deriving DecidableEq, Repr

deriving instance DecidableEq for Except

/-- Python truthiness test `not x` for an optional string: `None` and the
empty string are both falsy.  security.py line 15 applies this test to the
header value. -/
def strFalsy : Option String → Bool
  | none => true
  | some v => v == ""

/-- Modelled from CPython's `secrets.compare_digest` (`_tscmp`): scan the
two sequences in lockstep, accumulating the or of per-position xors, with
no early exit.  Returns the accumulator together with the number of
per-character steps performed. -/
def ctScan : List Char → List Char → Nat × Nat
  | [], [] => (0, 0)
  | [], _ :: _ => (1, 0)
  | _ :: _, [] => (1, 0)
  | x :: xs, y :: ys =>
    let p := ctScan xs ys
    ((x.toNat ^^^ y.toNat) ||| p.1, p.2 + 1)

/-- Modelled from CPython's `_tscmp`: when the lengths differ the scan is
performed on the second operand against itself (so the work done depends
only on the second operand) and the answer is false. -/
def tscmp (a b : String) : Bool × Nat :=
  if a.data.length = b.data.length then
    let s := ctScan a.data b.data
    (s.1 == 0, s.2)
  else
    let s := ctScan b.data b.data
    (false, s.2)

/-- The comparison result of secrets.compare_digest. -/
def compare_digest (a b : String) : Bool := (tscmp a b).1

/-- The number of per-character comparison steps secrets.compare_digest
performs: the cost model for the timing property. -/
def compare_digest_steps (a b : String) : Nat := (tscmp a b).2

/-- security.py, validate_api_key: the X-API-Key gate.  The header value is
`none` when the header is absent (APIKeyHeader with auto_error=False). -/
def validate_api_key (api_key_header : Option String) (TRANSCRIPTION_API_KEY : String) :
    Except HTTPError Bool :=
  if strFalsy api_key_header then
    .error ⟨401, "Missing API Key in X-API-Key header"⟩
  else if compare_digest (api_key_header.getD "") TRANSCRIPTION_API_KEY then
    .ok true
  else
    .error ⟨401, "Invalid API Key"⟩

/-- The amended form of the validator contract, written from the amended
claim: absent or empty header rejects as missing; a present, non-empty
header not equal to the secret rejects as invalid; a present, non-empty
header equal to the secret succeeds. -/
def validate_api_key_amended (api_key_header : Option String) (secret : String) :
    Except HTTPError Bool :=
  match api_key_header with
  | none => .error ⟨401, "Missing API Key in X-API-Key header"⟩
  | some s =>
    if s = "" then .error ⟨401, "Missing API Key in X-API-Key header"⟩
    else if s = secret then .ok true
    else .error ⟨401, "Invalid API Key"⟩

/-- config.py, get_env_variable: `os.getenv(var_name, default)` followed by
the None check.  A variable set to the empty string is present, not
missing. -/
def get_env_variable (env : String → Option String) (var_name : String)
    (default : Option String) : Except String String :=
  match (env var_name).or default with
  | some value => .ok value
  | none => .error ("Missing required environment variable: " ++ var_name)

/-- The process-wide configuration values loaded by config.py when the
module is imported. -/
structure ServiceConfig where
  recognizerName : String
  apiKeySecret : String
  credentialsPath : Option String
deriving DecidableEq

/-- Whether an Except value is a success. -/
def exceptIsOk {ε α : Type} : Except ε α → Bool
  | .ok _ => true
  | .error _ => false

/-- config.py module body: GOOGLE_APPLICATION_CREDENTIALS is read without a
requirement; GOOGLE_SPEECH_RECOGNIZER_NAME and TRANSCRIPTION_API_KEY are
resolved with no default, so the first absent one aborts the module load
(and with it process startup). -/
def load_service_config (env : String → Option String) : Except String ServiceConfig :=
  match get_env_variable env "GOOGLE_SPEECH_RECOGNIZER_NAME" none with
  | .error e => .error e
  | .ok recognizer =>
    match get_env_variable env "TRANSCRIPTION_API_KEY" none with
    | .error e => .error e
    | .ok apiKey => .ok ⟨recognizer, apiKey, env "GOOGLE_APPLICATION_CREDENTIALS"⟩

/-- One ranked candidate transcription returned by the provider. -/
structure RecognitionAlternative where
  transcript : String
deriving DecidableEq, Inhabited

/-- One result segment of a provider response: a list of ranked
alternatives, possibly empty. -/
structure SpeechRecognitionResult where
  alternatives : List RecognitionAlternative
deriving DecidableEq

/-- The provider response: an ordered list of results. -/
structure RecognizeResponse where
  results : List SpeechRecognitionResult
deriving DecidableEq

/-- The outcome of the single provider recognize call, as distinguished by
the except clauses of transcribe_audio_v2: NotFound is caught before the
more general GoogleAPICallError, and any other exception is the catch-all
branch. -/
inductive CallOutcome where
  | success (response : RecognizeResponse)
  | notFound (message : String)
  | apiCallError (message : String)
  | unexpectedError
deriving DecidableEq

/-- The ambient state transcribe_audio_v2 runs against: whether the
module-level speech client was constructed, whether the M4A_AAC encoding
enum is available in the provider library (its absence raises
AttributeError while building the explicit decoding config), and what the
provider call would do if reached. -/
structure TranscriptionEnv where
  clientInitialized : Bool
  m4aAacAvailable : Bool
  callOutcome : CallOutcome
deriving DecidableEq

/-- Python str.strip(): drop whitespace characters from both ends. -/
def pyStrip (s : String) : String :=
  ⟨((s.data.dropWhile Char.isWhitespace).reverse.dropWhile Char.isWhitespace).reverse⟩

/-- The transcript assembly of transcription.py lines 104-106: the first
alternative of each result that has alternatives, space-joined, then
stripped. -/
def joined_transcript (response : RecognizeResponse) : String :=
  pyStrip (String.intercalate " "
    (response.results.filterMap fun result =>
      result.alternatives.head?.map RecognitionAlternative.transcript))

/-- services/transcription.py, transcribe_audio_v2.  The first component is
the returned transcript or the raised HTTPException; the second records
whether the provider network call was attempted. -/
def transcribe_audio_v2 (env : TranscriptionEnv) (audio_content : List Nat)
    (profile_id : String) : Except HTTPError String × Bool :=
  if env.clientInitialized = false then
    (.error ⟨500, "Transcription service is not properly configured (Speech Client)."⟩, false)
  else if env.m4aAacAvailable = false then
    (.error ⟨500, "Transcription service configuration error (Audio Encoding)."⟩, false)
  else
    match env.callOutcome with
    | .notFound message =>
      (.error ⟨500, "Transcription recognizer configuration error: " ++ message⟩, true)
    | .apiCallError message =>
      (.error ⟨500, "Transcription failed due to Google API error: " ++ message⟩, true)
    | .unexpectedError =>
      (.error ⟨500, "An unexpected error occurred during transcription."⟩, true)
    | .success response =>
      if response.results = [] then (.ok "", true)
      else
        let transcript := joined_transcript response
        if transcript = "" then (.ok "", true)
        else (.ok transcript, true)

/-- Spec-side transcript for claim C1: the top alternative text of each
result, in order, space-joined and stripped. -/
def top_alternative_join (response : RecognizeResponse) : String :=
  pyStrip (String.intercalate " "
    (response.results.map fun result =>
      (result.alternatives.headD ⟨""⟩).transcript))

/-- Spec-side transcript for claim C8: the top alternative text over only
the results that have at least one alternative, space-joined and
stripped. -/
def present_alternative_join (response : RecognizeResponse) : String :=
  pyStrip (String.intercalate " "
    ((response.results.filter fun result => !result.alternatives.isEmpty).map
      fun result => (result.alternatives.headD ⟨""⟩).transcript))

/-- The opaque provider client handle. -/
inductive SpeechClient where
  | mk
deriving DecidableEq

/-- transcription.py lines 14-20: the module-level client construction is
wrapped in try/except; on failure the handle is set to None and the module
load continues (this definition is total: either way the process starts). -/
def init_speech_client : Except String SpeechClient → Option SpeechClient
  | .ok client => some client
  | .error _ => none

/-- The /health response body. -/
structure HealthResponse where
  status : String
deriving DecidableEq

/-- main.py, health_check: unconditionally returns status ok; it does not
consult the provider client state. -/
def health_check : HealthResponse := ⟨"ok"⟩

/-- The environment transcribe_audio_v2 sees given the module-level client
handle: the handle is read, never re-created, so every request shares it. -/
def env_of_client (client : Option SpeechClient) (avail : Bool)
    (outcome : CallOutcome) : TranscriptionEnv :=
  ⟨client.isSome, avail, outcome⟩

/-- A sequence of transcription requests against one fixed module state:
the client handle is never re-initialized between requests. -/
def run_requests (env : TranscriptionEnv) (requests : List (List Nat × String)) :
    List (Except HTTPError String) :=
  requests.map fun request => (transcribe_audio_v2 env request.1 request.2).1

/-- The /transcribe success body. -/
structure TranscriptResponse where
  transcript : String
deriving DecidableEq

/-- What one run of the endpoint handler did: its HTTP outcome, whether the
Transcription Client was invoked, and how many times the uploaded-file
handle was closed. -/
structure HandlerTrace where
  outcome : Except HTTPError TranscriptResponse
  clientInvoked : Bool
  closeCount : Nat
deriving DecidableEq

/-- main.py, process_transcription (the body after the API-key dependency
has passed): read the upload (readOutcome is the read, which may itself
raise), reject an empty read with 400, otherwise call the Transcription
Client; HTTPExceptions are re-raised as-is, any other exception becomes a
generic 500; the finally block closes the upload handle on every path. -/
def process_transcription (env : TranscriptionEnv)
    (readOutcome : Except String (List Nat)) (profile_id : String) : HandlerTrace :=
  match readOutcome with
  | .error message =>
    ⟨.error ⟨500, "An unexpected error occurred: " ++ message⟩, false, 1⟩
  | .ok audio_content =>
    if audio_content = [] then
      ⟨.error ⟨400, "Audio file is empty."⟩, false, 1⟩
    else
      match transcribe_audio_v2 env audio_content profile_id with
      | (.ok transcript, _) => ⟨.ok ⟨transcript⟩, true, 1⟩
      | (.error e, _) => ⟨.error e, true, 1⟩

/-- Or of naturals is zero exactly when both are zero. -/
theorem nat_or_eq_zero {x y : Nat} : x ||| y = 0 ↔ x = 0 ∧ y = 0 := by
  constructor
  · intro h
    constructor
    · refine Nat.zero_of_testBit_eq_false fun i => ?_
      have hb := congrArg (fun n => Nat.testBit n i) h
      simp only [Nat.testBit_lor, Nat.zero_testBit, Bool.or_eq_false_iff] at hb
      exact hb.1
    · refine Nat.zero_of_testBit_eq_false fun i => ?_
      have hb := congrArg (fun n => Nat.testBit n i) h
      simp only [Nat.testBit_lor, Nat.zero_testBit, Bool.or_eq_false_iff] at hb
      exact hb.2
  · rintro ⟨rfl, rfl⟩
    rfl

/-- Characters with the same scalar value are equal. -/
theorem char_toNat_injective : Function.Injective Char.toNat := fun a b h =>
  Char.eq_of_val_eq (UInt32.eq_of_toBitVec_eq (BitVec.toNat_injective h))

/-- The step count of the lockstep scan on equal-length inputs is the
length of the second input. -/
theorem ctScan_snd : ∀ a b : List Char, a.length = b.length →
    (ctScan a b).2 = b.length := by
  intro a
  induction a with
  | nil =>
    intro b hb
    cases b with
    | nil => rfl
    | cons y ys => simp at hb
  | cons x xs ih =>
    intro b hb
    cases b with
    | nil => simp at hb
    | cons y ys =>
      simp only [List.length_cons, Nat.succ.injEq] at hb
      simp only [ctScan, List.length_cons]
      rw [ih ys hb]

/-- On equal-length inputs the scan accumulator vanishes exactly when the
inputs are equal. -/
theorem ctScan_fst_eq_zero : ∀ a b : List Char, a.length = b.length →
    ((ctScan a b).1 = 0 ↔ a = b) := by
  intro a
  induction a with
  | nil =>
    intro b hb
    cases b with
    | nil => simp [ctScan]
    | cons y ys => simp at hb
  | cons x xs ih =>
    intro b hb
    cases b with
    | nil => simp at hb
    | cons y ys =>
      simp only [List.length_cons, Nat.succ.injEq] at hb
      simp only [ctScan, nat_or_eq_zero, Nat.xor_eq_zero, ih ys hb, List.cons.injEq]
      constructor
      · rintro ⟨h1, h2⟩
        exact ⟨char_toNat_injective h1, h2⟩
      · rintro ⟨rfl, h2⟩
        exact ⟨rfl, h2⟩

/-- Two strings with the same character data are equal. -/
theorem string_data_eq_iff {a b : String} : a.data = b.data ↔ a = b := by
  constructor
  · intro h
    cases a
    cases b
    exact congrArg String.mk h
  · intro h
    rw [h]

/-- The modelled compare_digest decides string equality. -/
theorem compare_digest_eq_true_iff (a b : String) :
    compare_digest a b = true ↔ a = b := by
  unfold compare_digest tscmp
  by_cases h : a.data.length = b.data.length
  · rw [if_pos h]
    show ((ctScan a.data b.data).1 == 0) = true ↔ a = b
    rw [beq_iff_eq, ctScan_fst_eq_zero a.data b.data h, string_data_eq_iff]
  · rw [if_neg h]
    show (false = true) ↔ a = b
    constructor
    · intro hfalse
      exact absurd hfalse (by simp)
    · intro hab
      exact absurd (congrArg (fun s => s.data.length) hab) h

/-- The work compare_digest performs depends only on the second operand:
it is the length of the second operand, whatever the contents are. -/
theorem compare_digest_steps_eq (a b : String) :
    compare_digest_steps a b = b.data.length := by
  unfold compare_digest_steps tscmp
  by_cases h : a.data.length = b.data.length
  · rw [if_pos h]
    exact ctScan_snd a.data b.data h
  · rw [if_neg h]
    exact ctScan_snd b.data b.data rfl

/-- The code's first-alternative filterMap equals mapping the head over
only the results whose alternatives are present. -/
theorem filterMap_head_eq_filter_map : ∀ results : List SpeechRecognitionResult,
    (results.filterMap fun r => r.alternatives.head?.map RecognitionAlternative.transcript)
      = ((results.filter fun r => !r.alternatives.isEmpty).map
          fun r => (r.alternatives.headD ⟨""⟩).transcript) := by
  intro results
  induction results with
  | nil => rfl
  | cons r rs ih =>
    cases halt : r.alternatives with
    | nil => simp [List.filterMap_cons, List.filter_cons, halt, ih]
    | cons a as => simp [List.filterMap_cons, List.filter_cons, halt, ih]

/-- When every result has at least one alternative, the code's
first-alternative filterMap is a plain map of the top alternatives. -/
theorem filterMap_head_eq_map_of_nonempty : ∀ results : List SpeechRecognitionResult,
    (∀ r ∈ results, r.alternatives ≠ []) →
    (results.filterMap fun r => r.alternatives.head?.map RecognitionAlternative.transcript)
      = (results.map fun r => (r.alternatives.headD ⟨""⟩).transcript) := by
  intro results
  induction results with
  | nil => intro _; rfl
  | cons r rs ih =>
    intro hall
    have hr : r.alternatives ≠ [] := hall r (List.mem_cons_self r rs)
    cases halt : r.alternatives with
    | nil => exact absurd halt hr
    | cons a as =>
      have ih2 := ih fun x hx => hall x (List.mem_cons_of_mem r hx)
      simp [List.filterMap_cons, halt, ih2]

/-- Claim C1: for every successful provider call, transcribe_audio_v2
returns the transcript assembled as follows: zero results give the empty
string (not an error); with results present, the top alternative text of
each result is space-joined in result order and stripped; a join that is
empty after stripping gives the empty string, the same as zero results. -/
theorem transcribe_success_transcript (env : TranscriptionEnv)
    (audio_content : List Nat) (profile_id : String) (response : RecognizeResponse)
    (hclient : env.clientInitialized = true) (henc : env.m4aAacAvailable = true)
    (hcall : env.callOutcome = CallOutcome.success response) :
    (response.results = [] →
      (transcribe_audio_v2 env audio_content profile_id).1 = Except.ok "") ∧
    ((∀ r ∈ response.results, r.alternatives ≠ []) →
      (transcribe_audio_v2 env audio_content profile_id).1
        = Except.ok (top_alternative_join response)) ∧
    ((∀ r ∈ response.results, r.alternatives ≠ []) →
      top_alternative_join response = "" →
      (transcribe_audio_v2 env audio_content profile_id).1 = Except.ok "") := by
  have key : ∀ _ : (∀ r ∈ response.results, r.alternatives ≠ []),
      (transcribe_audio_v2 env audio_content profile_id).1
        = Except.ok (top_alternative_join response) := by
    intro hall
    have hjoin : joined_transcript response = top_alternative_join response := by
      unfold joined_transcript top_alternative_join
      rw [filterMap_head_eq_map_of_nonempty response.results hall]
    by_cases hres : response.results = []
    · have htop : top_alternative_join response = "" := by
        unfold top_alternative_join
        rw [hres]
        rfl
      rw [htop]
      simp [transcribe_audio_v2, hclient, henc, hcall, hres]
    · by_cases ht : joined_transcript response = ""
      · rw [← hjoin, ht]
        simp [transcribe_audio_v2, hclient, henc, hcall, hres, ht]
      · have ht2 : top_alternative_join response ≠ "" := fun h => ht (hjoin.trans h)
        simp [transcribe_audio_v2, hclient, henc, hcall, hres, hjoin, ht2]
  refine ⟨?_, key, fun hall htop => by rw [key hall, htop]⟩
  intro hres
  simp [transcribe_audio_v2, hclient, henc, hcall, hres]

/-- Witness for C1 at a concrete two-result response: only the top
alternative of each result contributes, in order. -/
theorem transcribe_success_transcript_witness :
    (transcribe_audio_v2
      ⟨true, true, CallOutcome.success
        ⟨[⟨[⟨"hello"⟩, ⟨"jello"⟩]⟩, ⟨[⟨"world"⟩]⟩]⟩⟩ [7] "p").1
      = Except.ok "hello world" :=
  ((transcribe_success_transcript
      ⟨true, true, CallOutcome.success
        ⟨[⟨[⟨"hello"⟩, ⟨"jello"⟩]⟩, ⟨[⟨"world"⟩]⟩]⟩⟩ [7] "p"
      ⟨[⟨[⟨"hello"⟩, ⟨"jello"⟩]⟩, ⟨[⟨"world"⟩]⟩]⟩ rfl rfl rfl).2.1
    (by decide)).trans (by decide)

/-- Claim C2: transcribe_audio_v2 fails with exactly the classified error
kinds, each an HTTP 500: uninitialized client fails immediately with the
not-configured message and no network attempt; a not-found provider error
yields the recognizer-configuration message; any other provider API error
yields the upstream message with the provider text; any other exception
yields the generic message. -/
theorem transcribe_error_classification (env : TranscriptionEnv)
    (audio_content : List Nat) (profile_id : String) (message : String) :
    (env.clientInitialized = false →
      transcribe_audio_v2 env audio_content profile_id
        = (Except.error ⟨500,
            "Transcription service is not properly configured (Speech Client)."⟩, false)) ∧
    (env.clientInitialized = true → env.m4aAacAvailable = true →
      env.callOutcome = CallOutcome.notFound message →
      transcribe_audio_v2 env audio_content profile_id
        = (Except.error ⟨500,
            "Transcription recognizer configuration error: " ++ message⟩, true)) ∧
    (env.clientInitialized = true → env.m4aAacAvailable = true →
      env.callOutcome = CallOutcome.apiCallError message →
      transcribe_audio_v2 env audio_content profile_id
        = (Except.error ⟨500,
            "Transcription failed due to Google API error: " ++ message⟩, true)) ∧
    (env.clientInitialized = true → env.m4aAacAvailable = true →
      env.callOutcome = CallOutcome.unexpectedError →
      transcribe_audio_v2 env audio_content profile_id
        = (Except.error ⟨500,
            "An unexpected error occurred during transcription."⟩, true)) := by
  refine ⟨fun h1 => ?_, fun h1 h2 h3 => ?_, fun h1 h2 h3 => ?_, fun h1 h2 h3 => ?_⟩
  · simp [transcribe_audio_v2, h1]
  · simp [transcribe_audio_v2, h1, h2, h3]
  · simp [transcribe_audio_v2, h1, h2, h3]
  · simp [transcribe_audio_v2, h1, h2, h3]

/-- Witness for C2 at the not-found branch. -/
theorem transcribe_error_classification_witness :
    transcribe_audio_v2 ⟨true, true, CallOutcome.notFound "no recognizer"⟩ [7] "p"
      = (Except.error ⟨500,
          "Transcription recognizer configuration error: no recognizer"⟩, true) :=
  ((transcribe_error_classification
      ⟨true, true, CallOutcome.notFound "no recognizer"⟩ [7] "p"
      "no recognizer").2.1 rfl rfl rfl).trans (by decide)

/-- Counterexample to claim C3 as stated: the header value that is present
and equal to the configured secret (both the empty string) is nevertheless
rejected, with the missing-key message, because the code tests Python
truthiness of the header rather than absence. -/
theorem validate_api_key_empty_header_cex :
    some ("" : String) ≠ none ∧ ("" : String) = "" ∧
    validate_api_key (some "") ""
      = Except.error ⟨401, "Missing API Key in X-API-Key header"⟩ :=
  ⟨by simp, rfl, rfl⟩

/-- Claim C3, amended: the validator rejects with 401 and the missing-key
message when the header is absent or present but empty; rejects with 401
and the invalid-key message when the header is present, non-empty and not
equal to the secret; and succeeds exactly when the header is present,
non-empty and equal to the secret. -/
theorem validate_api_key_amended_correct (api_key_header : Option String)
    (secret : String) :
    validate_api_key api_key_header secret
      = validate_api_key_amended api_key_header secret := by
  cases api_key_header with
  | none => rfl
  | some s =>
    by_cases hs : s = ""
    · subst hs
      rfl
    · have hfalsy : strFalsy (some s) = false := by
        simp [strFalsy, hs]
      by_cases hsec : s = secret
      · subst hsec
        have hcd : compare_digest s s = true :=
          (compare_digest_eq_true_iff s s).mpr rfl
        simp [validate_api_key, validate_api_key_amended, hfalsy, hs, hcd,
          Option.getD]
      · have hcd : compare_digest s secret = false := by
          cases hval : compare_digest s secret with
          | false => rfl
          | true => exact absurd ((compare_digest_eq_true_iff s secret).mp hval) hsec
        simp [validate_api_key, validate_api_key_amended, hfalsy, hs, hsec, hcd,
          Option.getD]

/-- Claim C4: the API key comparison is timing-insensitive: the number of
per-character comparison steps compare_digest performs does not depend on
the supplied key content (in particular not on where the first mismatching
character occurs), and the comparison itself decides equality with the
secret. -/
theorem compare_digest_constant_time (key1 key2 secret : String) :
    compare_digest_steps key1 secret = compare_digest_steps key2 secret ∧
    (compare_digest key1 secret = true ↔ key1 = secret) :=
  ⟨by rw [compare_digest_steps_eq, compare_digest_steps_eq],
   compare_digest_eq_true_iff key1 secret⟩

/-- Claim C5: with a valid API key, an upload that reads as zero bytes
terminates the endpoint with 400 and the empty-file message, and the
Transcription Client is not invoked. -/
theorem empty_audio_rejected (env : TranscriptionEnv)
    (api_key secret profile_id : String)
    (hkey : validate_api_key (some api_key) secret = Except.ok true) :
    (process_transcription env (Except.ok []) profile_id).outcome
      = Except.error ⟨400, "Audio file is empty."⟩ ∧
    (process_transcription env (Except.ok []) profile_id).clientInvoked = false :=
  ⟨rfl, rfl⟩

/-- Witness for C5: a key that validates, an empty read. -/
theorem empty_audio_rejected_witness :
    (process_transcription ⟨true, true, CallOutcome.unexpectedError⟩
        (Except.ok []) "p").outcome
      = Except.error ⟨400, "Audio file is empty."⟩ ∧
    (process_transcription ⟨true, true, CallOutcome.unexpectedError⟩
        (Except.ok []) "p").clientInvoked = false :=
  empty_audio_rejected ⟨true, true, CallOutcome.unexpectedError⟩ "sek" "sek" "p"
    (by decide)

/-- Claim C6: startup fails when either required configuration value is
absent: load_service_config (run at module load, before the listener can
serve) fails, and get_env_variable fails exactly when the variable is
absent and no default was supplied. -/
theorem startup_requires_config (env : String → Option String) (var_name : String)
    (habsent : env "GOOGLE_SPEECH_RECOGNIZER_NAME" = none ∨
      env "TRANSCRIPTION_API_KEY" = none) :
    exceptIsOk (load_service_config env) = false ∧
    (exceptIsOk (get_env_variable env var_name none) = false ↔ env var_name = none) := by
  have hget : ∀ v : String,
      exceptIsOk (get_env_variable env v none) = false ↔ env v = none := by
    intro v
    cases hv : env v with
    | none => simp [get_env_variable, exceptIsOk, Option.or, hv]
    | some s => simp [get_env_variable, exceptIsOk, Option.or, hv]
  refine ⟨?_, hget var_name⟩
  rcases habsent with h | h
  · cases hR : get_env_variable env "GOOGLE_SPEECH_RECOGNIZER_NAME" none with
    | error e => simp [load_service_config, hR, exceptIsOk]
    | ok v =>
      have := (hget "GOOGLE_SPEECH_RECOGNIZER_NAME").mpr h
      rw [hR] at this
      exact absurd this (by simp [exceptIsOk])
  · cases hR : get_env_variable env "GOOGLE_SPEECH_RECOGNIZER_NAME" none with
    | error e => simp [load_service_config, hR, exceptIsOk]
    | ok v =>
      cases hK : get_env_variable env "TRANSCRIPTION_API_KEY" none with
      | error e => simp [load_service_config, hR, hK, exceptIsOk]
      | ok w =>
        have := (hget "TRANSCRIPTION_API_KEY").mpr h
        rw [hK] at this
        exact absurd this (by simp [exceptIsOk])

/-- Witness for C6: the empty environment. -/
theorem startup_requires_config_witness :
    exceptIsOk (load_service_config fun _ => none) = false ∧
    (exceptIsOk (get_env_variable (fun _ => none) "GOOGLE_SPEECH_RECOGNIZER_NAME" none)
        = false
      ↔ (fun _ : String => (none : Option String)) "GOOGLE_SPEECH_RECOGNIZER_NAME"
          = none) :=
  startup_requires_config (fun _ => none) "GOOGLE_SPEECH_RECOGNIZER_NAME" (Or.inl rfl)

/-- Claim C7: on every exit path of the endpoint handler body (success,
the 400 empty-file rejection, a classified 500 from the Transcription
Client, or an unexpected fault during the read) the uploaded-file handle
is closed exactly once. -/
theorem upload_closed_exactly_once (env : TranscriptionEnv)
    (readOutcome : Except String (List Nat)) (profile_id : String) :
    (process_transcription env readOutcome profile_id).closeCount = 1 := by
  unfold process_transcription
  split
  · rfl
  · split
    · rfl
    · split <;> rfl

/-- Claim C8: a successful response containing a result with an empty
alternatives list does not fail; that result is silently omitted, and the
output is the stripped space-join of first-alternative texts over only the
results that have at least one alternative. -/
theorem empty_alternatives_skipped (env : TranscriptionEnv)
    (audio_content : List Nat) (profile_id : String) (response : RecognizeResponse)
    (hclient : env.clientInitialized = true) (henc : env.m4aAacAvailable = true)
    (hcall : env.callOutcome = CallOutcome.success response)
    (hempty : ∃ r ∈ response.results, r.alternatives = []) :
    (transcribe_audio_v2 env audio_content profile_id).1
      = Except.ok (present_alternative_join response) := by
  have hres : response.results ≠ [] := by
    rcases hempty with ⟨r, hr, _⟩
    intro h
    rw [h] at hr
    cases hr
  have hjoin : joined_transcript response = present_alternative_join response := by
    unfold joined_transcript present_alternative_join
    rw [filterMap_head_eq_filter_map response.results]
  by_cases ht : joined_transcript response = ""
  · rw [← hjoin, ht]
    simp [transcribe_audio_v2, hclient, henc, hcall, hres, ht]
  · have ht2 : present_alternative_join response ≠ "" := fun h => ht (hjoin.trans h)
    simp [transcribe_audio_v2, hclient, henc, hcall, hres, hjoin, ht2]

/-- Witness for C8: the middle result has no alternatives and is skipped. -/
theorem empty_alternatives_skipped_witness :
    (transcribe_audio_v2
      ⟨true, true, CallOutcome.success
        ⟨[⟨[⟨"hello"⟩]⟩, ⟨[]⟩, ⟨[⟨"world"⟩]⟩]⟩⟩ [7] "p").1
      = Except.ok "hello world" :=
  (empty_alternatives_skipped
      ⟨true, true, CallOutcome.success
        ⟨[⟨[⟨"hello"⟩]⟩, ⟨[]⟩, ⟨[⟨"world"⟩]⟩]⟩⟩ [7] "p"
      ⟨[⟨[⟨"hello"⟩]⟩, ⟨[]⟩, ⟨[⟨"world"⟩]⟩]⟩ rfl rfl rfl
      ⟨⟨[]⟩, by decide, rfl⟩).trans (by decide)

/-- Claim C9: when the client is initialized but the M4A_AAC encoding enum
is absent, transcribe_audio_v2 fails with 500 and the audio-encoding
configuration message, with no network call attempted. -/
theorem missing_m4a_encoding_error (env : TranscriptionEnv)
    (audio_content : List Nat) (profile_id : String)
    (hclient : env.clientInitialized = true) (henc : env.m4aAacAvailable = false) :
    transcribe_audio_v2 env audio_content profile_id
      = (Except.error ⟨500,
          "Transcription service configuration error (Audio Encoding)."⟩, false) := by
  simp [transcribe_audio_v2, hclient, henc]

/-- Witness for C9. -/
theorem missing_m4a_encoding_error_witness :
    transcribe_audio_v2 ⟨true, false, CallOutcome.unexpectedError⟩ [7] "p"
      = (Except.error ⟨500,
          "Transcription service configuration error (Audio Encoding)."⟩, false) :=
  missing_m4a_encoding_error ⟨true, false, CallOutcome.unexpectedError⟩ [7] "p" rfl rfl

/-- Claim C10: a failed client construction at module load leaves the
handle as None, the process still starts and the health check still
answers ok, and every subsequent transcription request against that same
never-re-initialized handle fails with the 500 not-configured error. -/
theorem client_init_failure_nonfatal (message : String) (avail : Bool)
    (outcome : CallOutcome) (requests : List (List Nat × String)) :
    init_speech_client (Except.error message) = none ∧
    health_check = ⟨"ok"⟩ ∧
    run_requests (env_of_client (init_speech_client (Except.error message)) avail outcome)
        requests
      = requests.map (fun _ => Except.error ⟨500,
          "Transcription service is not properly configured (Speech Client)."⟩) := by
  refine ⟨rfl, rfl, ?_⟩
  simp [run_requests, env_of_client, init_speech_client, transcribe_audio_v2]
